import Mathlib

/-!
Shallow embedding of the ioBroker.teslafi core:
* `ProjectUtils` state-sync helpers (`src/src/lib/projectUtils.ts`):
  `isLikeEmpty`, `getStateValue` / `asyncGetForeignStateVal`,
  `checkAndSetValue`, `checkAndSetValueNumber`.
* `TeslaFiAPICaller` (`src/build/lib/teslafiAPICaller.js`):
  `HandleConnectionError`, `ReadTeslaFi`.

Host-store effects (ioBroker object/state API) are modelled as explicit
state passing over association lists plus a write trace; async rejections
of host calls are modelled as `Except`, and JS `try`/`catch` as an
explicit `tryCatch` combinator.
-/

namespace TeslaFi

/-- JSON values, the payloads the host store and `JSON.stringify` deal in.
`undefined` is modelled separately as `Option.none` at use sites. -/
inductive JVal where
  | jnull : JVal
  | jbool : Bool → JVal
  | jnum : Int → JVal
  | jstr : String → JVal
  | jarr : List JVal → JVal
  | jobj : List (String × JVal) → JVal

/-- `JSON.stringify` for strings (no escaping needed for the inputs used here). -/
def jquote (s : String) : String := "\"" ++ s ++ "\""

mutual

/-- `JSON.stringify` of a JSON value (compact form, as JS produces with one argument). -/
def JVal.stringify : JVal → String
  | .jnull => "null"
  | .jbool true => "true"
  | .jbool false => "false"
  | .jnum n => toString n
  | .jstr s => jquote s
  | .jarr xs => "[" ++ stringifyArr xs ++ "]"
  | .jobj fs => "\x7b" ++ stringifyObj fs ++ "\x7d"

/-- Comma-separated stringification of array elements. -/
def stringifyArr : List JVal → String
  | [] => ""
  | [x] => x.stringify
  | x :: xs => x.stringify ++ "," ++ stringifyArr xs

/-- Comma-separated stringification of object fields. -/
def stringifyObj : List (String × JVal) → String
  | [] => ""
  | [(k, v)] => jquote k ++ ":" ++ v.stringify
  | (k, v) :: fs => jquote k ++ ":" ++ v.stringify ++ "," ++ stringifyObj fs

end

/-- Characters removed by `isLikeEmpty`: whitespace and `"`, `'`, `[`, `]`, `{`, `}`. -/
def strippedChar (c : Char) : Bool :=
  c = ' ' || c = '\t' || c = '\n' || c = '\r' ||
  c = '"' || c = '\'' || c = '[' || c = ']' || c = '\x7b' || c = '\x7d'

/-- The residue of a string after the `replace` chain in `isLikeEmpty`. -/
def residue (s : String) : String :=
  String.mk (s.toList.filter (fun c => !strippedChar c))

/-- `ProjectUtils.isLikeEmpty` (projectUtils.ts lines 125-141): the argument is
`undefined` (`none`) or `null`, or its JSON serialization leaves nothing after
stripping whitespace and the characters `" ' [ ] { }`. -/
def isLikeEmpty : Option JVal → Bool
  | none => true
  | some .jnull => true
  | some v => residue v.stringify == ""

/-! ## Host key/value store model (ioBroker objects and states)

The adapter sees two maps addressed by dot-separated paths: the object
map (metadata descriptors, `setObject` / `setObjectNotExistsAsync` /
`getObjectAsync`) and the state map (values, `setState` / `getStateAsync`).
Both are modelled as association lists; a write trace records every
mutation the helpers perform. -/

/-- The subset of `ioBroker.StateCommon` built by the sync helpers.
`unit`/`min`/`max`/`step` are `none` when the spread `...(cond ? {f} : {})`
left the field out. -/
structure StateCommon where
  name : String
  type : String
  role : String
  desc : String
  read : Bool
  write : Bool
  unit : Option String
  min : Option Int
  max : Option Int
  step : Option Int
deriving Repr, DecidableEq

/-- A state value, typed as the three helper variants write it. -/
inductive SVal where
  | s : String → SVal
  | n : Int → SVal
  | b : Bool → SVal
deriving Repr, DecidableEq

/-- A stored state: value plus acknowledged flag. -/
structure StoredState where
  val : SVal
  ack : Bool
deriving Repr, DecidableEq

/-- Association-list lookup by path. -/
def lookupA {α : Type} : List (String × α) → String → Option α
  | [], _ => none
  | (k, v) :: rest, key => if k = key then some v else lookupA rest key

/-- Association-list update: replaces any previous binding of the key. -/
def setA {α : Type} (l : List (String × α)) (k : String) (v : α) : List (String × α) :=
  (k, v) :: l.filter (fun p => p.1 ≠ k)

/-- The host store: object (metadata) map and state (value) map. -/
structure Store where
  objects : List (String × StateCommon)
  states : List (String × StoredState)
deriving Repr, DecidableEq

/-- The store with no entries. -/
def emptyStore : Store := ⟨[], []⟩

/-- One mutation of the host store. -/
inductive WriteOp where
  | setObj : String → StateCommon → WriteOp
  | setSt : String → SVal → Bool → WriteOp
deriving Repr, DecidableEq

/-- `adapter.setObjectNotExistsAsync`: writes the descriptor only if no object
exists at the path. -/
def setObjectNotExists (s : Store) (p : String) (c : StateCommon) : Store × List WriteOp :=
  match lookupA s.objects p with
  | some _ => (s, [])
  | none => ({ s with objects := setA s.objects p c }, [.setObj p c])

/-- `adapter.setObject`: unconditionally (re)writes the descriptor. -/
def setObjectForce (s : Store) (p : String) (c : StateCommon) : Store × List WriteOp :=
  ({ s with objects := setA s.objects p c }, [.setObj p c])

/-- `adapter.setState(p, {val, ack: true})`. -/
def setStateAck (s : Store) (p : String) (v : SVal) : Store × List WriteOp :=
  ({ s with states := setA s.states p ⟨v, true⟩ }, [.setSt p v true])

/-- `adapter.getStateAsync`: the stored state, or `none` (JS `null`). -/
def getStateW (s : Store) (p : String) : Option StoredState := lookupA s.states p

/-- JS `String.prototype.trim`: drop whitespace from both ends. -/
def jsTrim (s : String) : String :=
  String.mk (((s.toList.dropWhile Char.isWhitespace).reverse.dropWhile
    Char.isWhitespace).reverse)

/-- Splitting a character list at `.` separators, JS `split(".")` semantics
(`"" → [""]`, consecutive separators yield empty segments). -/
def splitDotAux : List Char → List Char → List String
  | [], acc => [String.mk acc.reverse]
  | c :: cs, acc =>
    if c = '.' then String.mk acc.reverse :: splitDotAux cs []
    else splitDotAux cs (c :: acc)

/-- JS `stateName.split(".")`. -/
def splitDot (s : String) : List String := splitDotAux s.toList []

/-- `stateName.split(".").pop() ?? stateName`. -/
def lastSegment (stateName : String) : String :=
  ((splitDot stateName).getLast?).getD stateName

/-- Result of a sync helper: final store plus the trace of writes performed. -/
structure SyncResult where
  store : Store
  writes : List WriteOp
deriving Repr, DecidableEq

/-- Number of metadata (object) writes in a trace. -/
def metaWrites (ws : List WriteOp) : Nat :=
  (ws.filter (fun w => match w with | .setObj _ _ => true | _ => false)).length

/-- The value (state) writes in a trace. -/
def valueWrites (ws : List WriteOp) : List WriteOp :=
  ws.filter (fun w => match w with | .setSt _ _ _ => true | _ => false)

/-- The guard `value?.trim()?.length` of `checkAndSetValue`: falsy for JS
`null`/`undefined` (`none`, via optional chaining) and for strings whose trim
is empty (length `0` is falsy). -/
def presentString : Option String → Bool
  | none => false
  | some v => (jsTrim v).length != 0

/-- The descriptor `commonObj` built by `checkAndSetValue`
(projectUtils.ts lines 165-172). -/
def strCommonObj (stateName description role : String) (writeable : Bool) : StateCommon :=
  { name := lastSegment stateName, type := "string", role := role, desc := description,
    read := true, write := writeable, unit := none, min := none, max := none, step := none }

/-- `ProjectUtils.checkAndSetValue` (projectUtils.ts lines 155-181).
`value` is `Option String` because JS callers can pass `null`/`undefined`
despite the annotation; the source guards with `value?.trim()?.length`.
Defaults at call sites: description `"-"`, role `"text"`, writeable,
dontUpdate, forceMode all `false`. -/
def checkAndSetValue (stateName : String) (value : Option String)
    (description role : String) (writeable dontUpdate forceMode : Bool)
    (s : Store) : SyncResult :=
  if presentString value then
    match value with
    | none => ⟨s, []⟩
    | some v =>
      let c := strCommonObj stateName description role writeable
      let os := if forceMode then setObjectForce s stateName c else setObjectNotExists s stateName c
      if dontUpdate = false ∨ getStateW os.1 stateName = none then
        let vs := setStateAck os.1 stateName (.s v)
        ⟨vs.1, os.2 ++ vs.2⟩
      else ⟨os.1, os.2⟩
  else ⟨s, []⟩

/-- JS truthiness of `(unit ?? undefined)`: a string is truthy iff non-empty;
`null`/`undefined` are falsy. -/
def truthyOptStr : Option String → Bool
  | none => false
  | some u => u != ""

/-- JS truthiness of `(min ?? undefined)` for a number: truthy iff non-zero
(`null`/`undefined` falsy). -/
def truthyOptNum : Option Int → Bool
  | none => false
  | some m => m != 0

/-- The descriptor `commonObj` built by `checkAndSetValueNumber`
(projectUtils.ts lines 213-226): spreads `...((unit ?? undefined) ? {unit} : {})`
etc., so each optional field is included exactly when JS-truthy. -/
def numCommonObj (stateName description : String) (unit : Option String) (role : String)
    (writeable : Bool) (min max step : Option Int) : StateCommon :=
  { name := lastSegment stateName, type := "number", role := role, desc := description,
    read := true, write := writeable,
    unit := if truthyOptStr unit then unit else none,
    min := if truthyOptNum min then min else none,
    max := if truthyOptNum max then max else none,
    step := if truthyOptNum step then step else none }

/-- `ProjectUtils.checkAndSetValueNumber` (projectUtils.ts lines 199-236).
`value = none` models JS `undefined`, rejected by the guard
`value !== undefined`. Defaults: description `"-"`, unit/min/max/step
`undefined`, role `"value"`, flags `false`. -/
def checkAndSetValueNumber (stateName : String) (value : Option Int)
    (description : String) (unit : Option String) (role : String)
    (writeable dontUpdate forceMode : Bool) (min max step : Option Int)
    (s : Store) : SyncResult :=
  match value with
  | none => ⟨s, []⟩
  | some v =>
    let c := numCommonObj stateName description unit role writeable min max step
    let os := if forceMode then setObjectForce s stateName c else setObjectNotExists s stateName c
    if dontUpdate = false ∨ getStateW os.1 stateName = none then
      let vs := setStateAck os.1 stateName (.n v)
      ⟨vs.1, os.2 ++ vs.2⟩
    else ⟨os.1, os.2⟩

/-! ## StateReader: `getStateValue` and `asyncGetForeignStateVal`

Host calls can reject; a rejection is an `Except.error`. JS `try`/`catch`
is the explicit `tryCatch` combinator below, so the theorems about these
helpers really prove that every rejection is caught. -/

/-- An `ioBroker.State` as returned by `getStateAsync`: the value plus the
acknowledged flag (further host fields such as `ts` play no role here). -/
structure IoState where
  val : JVal
  ack : Bool

/-- The JSON object `JSON.stringify` sees for a state. -/
def IoState.toJVal (st : IoState) : JVal :=
  .jobj [("val", st.val), ("ack", .jbool st.ack)]

/-- `isLikeEmpty` applied to a `getStateAsync` result
(`none` models both JS `null` and `undefined`). -/
def isLikeEmptyState (o : Option IoState) : Bool :=
  isLikeEmpty (o.map IoState.toJVal)

/-- The host-store interface consumed by the read helpers; each call either
resolves (`ok`, with `none` for a missing object/state) or rejects (`error`). -/
structure Host where
  getObjectAsync : String → Except String (Option Unit)
  getStateAsync : String → Except String (Option IoState)
  getForeignObjectAsync : String → Except String (Option Unit)
  getForeignStateAsync : String → Except String (Option IoState)

/-- JS `try { body } catch (e) { handler e }`. -/
def tryCatch {α : Type} (body : Except String α) (handler : String → Except String α) :
    Except String α :=
  match body with
  | .ok a => .ok a
  | .error e => handler e

/-- `ProjectUtils.verifyStateAvailable` (projectUtils.ts lines 62-69):
object lookup; a rejection propagates to the caller. -/
def verifyStateAvailable (h : Host) (n : String) : Except String Bool :=
  match h.getObjectAsync n with
  | .error e => .error e
  | .ok none => .ok false
  | .ok (some _) => .ok true

/-- `ProjectUtils.getState` (projectUtils.ts lines 40-54). When
`verifyStateAvailable` is false the source falls off the end of the `try`
(JS `undefined`, here `ok none`); an empty state throws, and the `catch`
logs and returns `null` (`ok none`). -/
def getState (h : Host) (n : String) : Except String (Option IoState) :=
  tryCatch
    (match verifyStateAvailable h n with
     | .error e => .error e
     | .ok false => .ok none
     | .ok true =>
       match h.getStateAsync n with
       | .error e => .error e
       | .ok sv =>
         if isLikeEmptyState sv = false then .ok sv
         else .error ("Unable to retrieve info from state " ++ n ++ "."))
    (fun _ => .ok none)

/-- `ProjectUtils.getStateValue` (projectUtils.ts lines 24-32):
`stateObject?.val ?? null`, with its own (in practice dead) `catch`. -/
def getStateValue (h : Host) (n : String) : Except String JVal :=
  tryCatch
    (match getState h n with
     | .error e => .error e
     | .ok none => .ok JVal.jnull
     | .ok (some st) => .ok st.val)
    (fun _ => .ok JVal.jnull)

/-- `ProjectUtils.asyncGetForeignState` (projectUtils.ts lines 97-114): a
missing foreign object throws (caught below, returning `null`). -/
def asyncGetForeignState (h : Host) (n : String) : Except String (Option IoState) :=
  tryCatch
    (match h.getForeignObjectAsync n with
     | .error e => .error e
     | .ok none => .error ("State " ++ n ++ " does not exist.")
     | .ok (some _) =>
       match h.getForeignStateAsync n with
       | .error e => .error e
       | .ok sv =>
         if isLikeEmptyState sv = false then .ok sv
         else .error ("Unable to retrieve info from state " ++ n ++ "."))
    (fun _ => .ok none)

/-- `ProjectUtils.asyncGetForeignStateVal` (projectUtils.ts lines 78-89):
`null` on a missing state object, otherwise `stateObject.val`. -/
def asyncGetForeignStateVal (h : Host) (n : String) : Except String JVal :=
  tryCatch
    (match asyncGetForeignState h n with
     | .error e => .error e
     | .ok none => .ok JVal.jnull
     | .ok (some st) => .ok st.val)
    (fun _ => .ok JVal.jnull)

/-- A host whose every call rejects, used to exercise the failure paths. -/
def hostAllFail : Host :=
  ⟨fun _ => .error "io failure", fun _ => .error "io failure",
   fun _ => .error "io failure", fun _ => .error "io failure"⟩

/-! ## ErrorClassifier: `HandleConnectionError` and `ReadTeslaFi`
(`src/build/lib/teslafiAPICaller.js`) -/

/-- Log severities of the adapter logging sink. -/
inductive LogLevel where
  | debug : LogLevel
  | warn : LogLevel
  | error : LogLevel
deriving Repr, DecidableEq, BEq

/-- The caught error object: `response` carries the HTTP status when the
error has a `response` field (an object, hence truthy whenever present);
`code` is the transport code (`none` for JS `undefined`); `message` the
error message. -/
structure StError where
  response : Option Int
  code : Option String
  message : String
deriving Repr, DecidableEq

/-- JS truthiness of `stError.code`: present and a non-empty string. -/
def truthyCode : Option String → Bool
  | none => false
  | some c => c != ""

/-- The plugin environment: `supportsPlugins` models
`adapter.supportsFeature && adapter.supportsFeature("PLUGINS")`,
`sentryAvailable` a non-null `getPluginInstance("sentry")`, `sentryObject` a
truthy `getSentryObject()`, `hour` is `new Date().getHours()`. -/
structure HCEnv where
  supportsPlugins : Bool
  sentryAvailable : Bool
  sentryObject : Bool
  hour : Nat
deriving Repr, DecidableEq

/-- Observable outcome of `HandleConnectionError`: the log lines, the number
of times `adapter.stop` was actually invoked, the Sentry reports submitted
(message and hour tag), and the `LastSentryLoggedError` state afterwards. -/
structure HCResult where
  logs : List (LogLevel × String)
  stopCalls : Nat
  reports : List (String × Nat)
  lastSentry : Option String
deriving Repr, DecidableEq

/-- `TeslaFiAPICaller.HandleConnectionError` (teslafiAPICaller.js lines
536-593). `lastErr` is the value of the `LastSentryLoggedError` state before
the call (`none` when absent or not comparable-equal to any string).

Note the 401 arm: the source executes `void this.adapter.stop;` — a bare
property reference, not a call — so `stopCalls` is `0` there. -/
def HandleConnectionError (stError : StError) (sOccasion sErrorOccInt : String)
    (env : HCEnv) (lastErr : Option String) : HCResult :=
  match stError.response with
  | some status =>
    if status = 401 then
      { logs := [(.error, "The TeslaFi API request has not been completed because it lacks valid authentication credentials."),
                 (.error, "HTTP error 401 when calling " ++ sOccasion ++ "!! (e" ++ sErrorOccInt ++ ".0)"),
                 (.error, "Adapter is shutting down")],
        stopCalls := 0, reports := [], lastSentry := lastErr }
    else
      { logs := [(.error, "HTTP error " ++ toString status ++ " when polling " ++ sOccasion ++ "!! (e" ++ sErrorOccInt ++ ".1)")],
        stopCalls := 0, reports := [], lastSentry := lastErr }
  | none =>
    if truthyCode stError.code then
      if stError.code = some "ETIMEDOUT" then
        { logs := [(.warn, "Connection timeout error when calling " ++ sOccasion),
                   (.warn, "Please verify the API Token or adapt yout poll interval, (e" ++ sErrorOccInt ++ ".2)")],
          stopCalls := 0, reports := [], lastSentry := lastErr }
      else if stError.code = some "EHOSTUNREACH" then
        { logs := [(.warn, "TeslaFi not reachable error when calling " ++ sOccasion),
                   (.warn, "Please verify yout network environment, (e" ++ sErrorOccInt ++ ".2)")],
          stopCalls := 0, reports := [], lastSentry := lastErr }
      else if stError.code = some "ENETUNREACH" then
        { logs := [(.warn, "Inverter network not reachable error when calling " ++ sOccasion),
                   (.warn, "Please verify yout network environment, (e" ++ sErrorOccInt ++ ".2)")],
          stopCalls := 0, reports := [], lastSentry := lastErr }
      else
        { logs := [], stopCalls := 0, reports := [], lastSentry := lastErr }
    else
      let unknownLogs := [(LogLevel.error, "Unknown error when calling " ++ sOccasion ++ ": " ++ stError.message),
                          (LogLevel.error, "Please verify the API Token or adapt yout poll interval, (e" ++ sErrorOccInt ++ ".3)")]
      if env.supportsPlugins && env.sentryAvailable then
        if lastErr ≠ some stError.message then
          { logs := unknownLogs, stopCalls := 0,
            reports := if env.sentryObject then [("Catched error: " ++ stError.message, env.hour)] else [],
            lastSentry := some stError.message }
        else
          { logs := unknownLogs, stopCalls := 0, reports := [], lastSentry := lastErr }
      else
        { logs := unknownLogs, stopCalls := 0, reports := [], lastSentry := lastErr }

/-- Dependencies of one poll: the plugin environment, the stored last error,
and `JSON.parse` as an oracle (`ok` returns the re-serialized document for
the debug log; `error` is the SyntaxError message it throws). -/
structure PollDeps where
  env : HCEnv
  lastErr : Option String
  parse : String → Except String String

/-- Observable outcome of one `ReadTeslaFi` poll. -/
structure PollResult where
  value : Bool
  logs : List (LogLevel × String)
  stopCalls : Nat
  reports : List (String × Nat)

/-- `TeslaFiAPICaller.ReadTeslaFi` (teslafiAPICaller.js lines 25-51):
one HTTP GET; an empty body throws, a parse failure throws, and every
rejection lands in the `.catch` that runs `HandleConnectionError`; the
function then returns `true` unconditionally. -/
def ReadTeslaFi (httpResult : Except StError String) (d : PollDeps) : PollResult :=
  match httpResult with
  | .error e =>
    let r := HandleConnectionError e "TeslaFi API call" "FI0" d.env d.lastErr
    { value := true, logs := r.logs, stopCalls := r.stopCalls, reports := r.reports }
  | .ok body =>
    if body = "" then
      let r := HandleConnectionError ⟨none, none, "Empty answear from TeslaFi."⟩
        "TeslaFi API call" "FI0" d.env d.lastErr
      { value := true, logs := r.logs, stopCalls := r.stopCalls, reports := r.reports }
    else
      match d.parse body with
      | .error msg =>
        let r := HandleConnectionError ⟨none, none, msg⟩
          "TeslaFi API call" "FI0" d.env d.lastErr
        { value := true,
          logs := (LogLevel.debug, "TeslaFI data read - response data: " ++ body) :: r.logs,
          stopCalls := r.stopCalls, reports := r.reports }
      | .ok pretty =>
        { value := true,
          logs := [(LogLevel.debug, "TeslaFI data read - response data: " ++ body),
                   (LogLevel.debug, "TeslaFI data read - result data: " ++ pretty)],
          stopCalls := 0, reports := [] }

end TeslaFi

namespace TeslaFi

/-! ## Lemmas about the store primitives -/

theorem lookupA_setA_self {α : Type} (l : List (String × α)) (k : String) (v : α) :
    lookupA (setA l k v) k = some v := by
  simp [setA, lookupA]

theorem states_setObjectNotExists (s : Store) (p : String) (c : StateCommon) :
    (setObjectNotExists s p c).1.states = s.states := by
  unfold setObjectNotExists
  cases lookupA s.objects p <;> rfl

theorem states_setObjectForce (s : Store) (p : String) (c : StateCommon) :
    (setObjectForce s p c).1.states = s.states := rfl

/-- The object-write step touches only the object map, never the states. -/
theorem getStateW_objStep (fm : Bool) (s : Store) (p q : String) (c : StateCommon) :
    getStateW (if fm then setObjectForce s p c else setObjectNotExists s p c).1 q
      = getStateW s q := by
  cases fm <;> simp [getStateW, states_setObjectNotExists, states_setObjectForce]

/-! ## Claim theorems for the sync helpers -/

/-- C3: evaluation of the numeric sync at min `0`, step `0`, unit `""`,
max `100`: the descriptor written to the store omits `min`, `step` and `unit`
(despite each being defined and non-null) and keeps `max`, because the source
spreads use JS truthiness, not a defined-and-non-null test. -/
theorem C3_truthiness_omits_zero_min_and_empty_unit :
    lookupA (checkAndSetValueNumber "tesla.0.test" (some 5) "-" (some "") "value"
        false false false (some 0) (some 100) (some 0) emptyStore).store.objects
        "tesla.0.test"
      = some { name := "test", type := "number", role := "value", desc := "-",
               read := true, write := false,
               unit := none, min := none, max := some 100, step := none } := by
  decide

/-- C4: two successive string syncs with the same path, the same present
value and default flags, starting from a store with no object at the path:
exactly one metadata write (first call only), a value write on both calls,
and the final descriptor equals the descriptor after one call. -/
theorem C4_sync_idempotent (p v d r : String) (w : Bool) (s : Store)
    (hv : presentString (some v) = true) (hobj : lookupA s.objects p = none) :
    metaWrites (checkAndSetValue p (some v) d r w false false s).writes = 1 ∧
    (valueWrites (checkAndSetValue p (some v) d r w false false s).writes).length = 1 ∧
    metaWrites (checkAndSetValue p (some v) d r w false false
        (checkAndSetValue p (some v) d r w false false s).store).writes = 0 ∧
    (valueWrites (checkAndSetValue p (some v) d r w false false
        (checkAndSetValue p (some v) d r w false false s).store).writes).length = 1 ∧
    lookupA (checkAndSetValue p (some v) d r w false false
        (checkAndSetValue p (some v) d r w false false s).store).store.objects p
      = lookupA (checkAndSetValue p (some v) d r w false false s).store.objects p := by
  simp only [checkAndSetValue, hv, if_true, if_false, Bool.false_eq_true,
    setObjectNotExists, hobj]
  simp [setStateAck, metaWrites, valueWrites, lookupA_setA_self, getStateW]

/-- C4 witness: the idempotence theorem at a concrete path, value and the
empty store. -/
theorem C4_sync_idempotent_witness :
    metaWrites (checkAndSetValue "a.b" (some "x") "-" "text" false false false
        emptyStore).writes = 1 ∧
    (valueWrites (checkAndSetValue "a.b" (some "x") "-" "text" false false false
        emptyStore).writes).length = 1 ∧
    metaWrites (checkAndSetValue "a.b" (some "x") "-" "text" false false false
        (checkAndSetValue "a.b" (some "x") "-" "text" false false false
          emptyStore).store).writes = 0 ∧
    (valueWrites (checkAndSetValue "a.b" (some "x") "-" "text" false false false
        (checkAndSetValue "a.b" (some "x") "-" "text" false false false
          emptyStore).store).writes).length = 1 ∧
    lookupA (checkAndSetValue "a.b" (some "x") "-" "text" false false false
        (checkAndSetValue "a.b" (some "x") "-" "text" false false false
          emptyStore).store).store.objects "a.b"
      = lookupA (checkAndSetValue "a.b" (some "x") "-" "text" false false false
          emptyStore).store.objects "a.b" :=
  C4_sync_idempotent "a.b" "x" "-" "text" false emptyStore (by decide) rfl

theorem valueWrites_append (a b : List WriteOp) :
    valueWrites (a ++ b) = valueWrites a ++ valueWrites b := by
  simp [valueWrites, List.filter_append]

theorem valueWrites_objStep (fm : Bool) (s : Store) (p : String) (c : StateCommon) :
    valueWrites (if fm then setObjectForce s p c else setObjectNotExists s p c).2 = [] := by
  cases fm <;> unfold setObjectForce setObjectNotExists <;>
    first
      | rfl
      | (cases lookupA s.objects p <;> rfl)

theorem valueWrites_setSt (p : String) (v : SVal) (a : Bool) :
    valueWrites [WriteOp.setSt p v a] = [WriteOp.setSt p v a] := rfl

/-- C5: with `dontUpdate = true` and a prior value at the path, both the string
and the numeric sync leave the stored value untouched, whatever value they are
given; and (for a present value) the string sync performs the value write
`{value, acknowledged: true}` exactly when `dontUpdate` is false or no prior
value exists. -/
theorem C5_skipIfExists_frame (p d r : String) (w fm : Bool) (s : Store) :
    (∀ value : Option String, getStateW s p ≠ none →
       getStateW (checkAndSetValue p value d r w true fm s).store p = getStateW s p)
    ∧ (∀ value : Option Int, ∀ unit : Option String, ∀ mn mx st : Option Int,
        getStateW s p ≠ none →
        getStateW (checkAndSetValueNumber p value d unit r w true fm mn mx st s).store p
          = getStateW s p)
    ∧ (∀ v : String, presentString (some v) = true → ∀ du : Bool,
        valueWrites (checkAndSetValue p (some v) d r w du fm s).writes =
          if du = false ∨ getStateW s p = none then [WriteOp.setSt p (SVal.s v) true]
          else []) := by
  refine ⟨?_, ?_, ?_⟩
  · intro value hne
    cases value with
    | none => simp [checkAndSetValue, presentString]
    | some v =>
      by_cases hpv : presentString (some v) = true
      · simp only [checkAndSetValue, hpv, if_true]
        rw [if_neg]
        · exact getStateW_objStep fm s p p _
        · rw [getStateW_objStep fm s p p _]
          simp [hne]
      · simp [checkAndSetValue, hpv]
  · intro value unit mn mx st hne
    cases value with
    | none => simp [checkAndSetValueNumber]
    | some v =>
      simp only [checkAndSetValueNumber]
      rw [if_neg]
      · exact getStateW_objStep fm s p p _
      · rw [getStateW_objStep fm s p p _]
        simp [hne]
  · intro v hpv du
    cases du with
    | false =>
      simp only [checkAndSetValue, hpv, if_true]
      simp [setStateAck, valueWrites_append, valueWrites_objStep, valueWrites_setSt]
    | true =>
      cases hst : getStateW s p with
      | none =>
        simp only [checkAndSetValue, hpv, if_true]
        simp [getStateW_objStep, hst, setStateAck, valueWrites_append,
          valueWrites_objStep, valueWrites_setSt]
      | some e =>
        simp only [checkAndSetValue, hpv, if_true]
        simp [getStateW_objStep, hst, valueWrites_objStep]

/-- C5 witness: on a store holding `"old"` at `a.b`, a `dontUpdate` sync with
`"new"` leaves the value `"old"` and performs no value write. -/
theorem C5_skipIfExists_frame_witness :
    getStateW (checkAndSetValue "a.b" (some "new") "-" "text" false true false
        ⟨[], [("a.b", ⟨SVal.s "old", true⟩)]⟩).store "a.b"
      = some ⟨SVal.s "old", true⟩
    ∧ valueWrites (checkAndSetValue "a.b" (some "new") "-" "text" false true false
        ⟨[], [("a.b", ⟨SVal.s "old", true⟩)]⟩).writes = [] := by
  have h := C5_skipIfExists_frame "a.b" "-" "text" false false
    ⟨[], [("a.b", ⟨SVal.s "old", true⟩)]⟩
  refine ⟨?_, ?_⟩
  · have := h.1 (some "new") (by decide)
    rw [this]; decide
  · have := h.2.2 "new" (by decide) true
    rw [this]; decide

/-- C6: the string sync is a no-op (store unchanged, no writes, no error) when
the trimmed value is empty, and with default `dontUpdate` it writes the value
(acknowledged) whenever the trimmed value is non-empty. -/
theorem C6_string_guard (p v d r : String) (w du fm : Bool) (s : Store) :
    ((jsTrim v).length = 0 → checkAndSetValue p (some v) d r w du fm s = ⟨s, []⟩)
    ∧ ((jsTrim v).length ≠ 0 → du = false →
        getStateW (checkAndSetValue p (some v) d r w du fm s).store p
          = some ⟨SVal.s v, true⟩
        ∧ (checkAndSetValue p (some v) d r w du fm s).writes ≠ []) := by
  constructor
  · intro h0
    simp [checkAndSetValue, presentString, h0]
  · intro hne hdu
    subst hdu
    have hpv : presentString (some v) = true := by
      simp [presentString, hne]
    simp only [checkAndSetValue, hpv, if_true]
    constructor
    · simp [setStateAck, getStateW, lookupA_setA_self]
    · simp [setStateAck]

/-- C6 witness: a whitespace-only value leaves the empty store untouched; the
value `"hi"` is written acknowledged. -/
theorem C6_string_guard_witness :
    checkAndSetValue "a.b" (some "  ") "-" "text" false false false emptyStore
      = ⟨emptyStore, []⟩
    ∧ getStateW (checkAndSetValue "a.b" (some "hi") "-" "text" false false false
        emptyStore).store "a.b" = some ⟨SVal.s "hi", true⟩ :=
  ⟨(C6_string_guard "a.b" "  " "-" "text" false false false emptyStore).1 (by decide),
   ((C6_string_guard "a.b" "hi" "-" "text" false false false emptyStore).2
      (by decide) rfl).1⟩

/-- C10: calling the string sync with `null`/`undefined` as the value (the
optional-chaining guard `value?.trim()?.length`) performs no writes, leaves the
store unchanged, and raises no error. -/
theorem C10_null_value_noop (p d r : String) (w du fm : Bool) (s : Store) :
    checkAndSetValue p none d r w du fm s = ⟨s, []⟩ := by
  simp [checkAndSetValue, presentString]

/-- C7: the emptiness predicate classifies `{}`, `[]`, `null`, `undefined` as
empty, and `{val:0}`, `{val:false}` as non-empty. -/
theorem C7_isLikeEmpty_classification :
    isLikeEmpty (some (JVal.jobj [])) = true ∧
    isLikeEmpty (some (JVal.jarr [])) = true ∧
    isLikeEmpty (some JVal.jnull) = true ∧
    isLikeEmpty none = true ∧
    isLikeEmpty (some (JVal.jobj [("val", JVal.jnum 0)])) = false ∧
    isLikeEmpty (some (JVal.jobj [("val", JVal.jbool false)])) = false := by
  refine ⟨rfl, rfl, rfl, rfl, ?_, ?_⟩ <;> decide

/-- C8: both read helpers always resolve (no host rejection propagates), they
yield `null` whenever the object lookup rejects or finds nothing, whenever the
state lookup rejects, and whenever the state is empty per `isLikeEmpty`; and
they yield the stored value when everything succeeds and the state is
non-empty. -/
theorem C8_read_helpers_null_or_value (h : Host) (n : String) :
    (∃ v, getStateValue h n = Except.ok v)
    ∧ (∃ v, asyncGetForeignStateVal h n = Except.ok v)
    ∧ (∀ e, h.getObjectAsync n = Except.error e →
        getStateValue h n = Except.ok JVal.jnull)
    ∧ (h.getObjectAsync n = Except.ok none →
        getStateValue h n = Except.ok JVal.jnull)
    ∧ (∀ e, h.getStateAsync n = Except.error e →
        getStateValue h n = Except.ok JVal.jnull)
    ∧ (∀ sv, h.getObjectAsync n = Except.ok (some ()) →
        h.getStateAsync n = Except.ok sv → isLikeEmptyState sv = true →
        getStateValue h n = Except.ok JVal.jnull)
    ∧ (∀ st, h.getObjectAsync n = Except.ok (some ()) →
        h.getStateAsync n = Except.ok (some st) →
        isLikeEmptyState (some st) = false →
        getStateValue h n = Except.ok st.val)
    ∧ (∀ e, h.getForeignObjectAsync n = Except.error e →
        asyncGetForeignStateVal h n = Except.ok JVal.jnull)
    ∧ (h.getForeignObjectAsync n = Except.ok none →
        asyncGetForeignStateVal h n = Except.ok JVal.jnull)
    ∧ (∀ e, h.getForeignStateAsync n = Except.error e →
        asyncGetForeignStateVal h n = Except.ok JVal.jnull)
    ∧ (∀ sv, h.getForeignObjectAsync n = Except.ok (some ()) →
        h.getForeignStateAsync n = Except.ok sv → isLikeEmptyState sv = true →
        asyncGetForeignStateVal h n = Except.ok JVal.jnull)
    ∧ (∀ st, h.getForeignObjectAsync n = Except.ok (some ()) →
        h.getForeignStateAsync n = Except.ok (some st) →
        isLikeEmptyState (some st) = false →
        asyncGetForeignStateVal h n = Except.ok st.val) := by
  refine ⟨?_, ?_, ?_, ?_, ?_, ?_, ?_, ?_, ?_, ?_, ?_, ?_⟩
  · cases hg : getState h n with
    | error e => exact ⟨JVal.jnull, by simp [getStateValue, tryCatch, hg]⟩
    | ok o =>
      cases o with
      | none => exact ⟨JVal.jnull, by simp [getStateValue, tryCatch, hg]⟩
      | some st => exact ⟨st.val, by simp [getStateValue, tryCatch, hg]⟩
  · cases hg : asyncGetForeignState h n with
    | error e => exact ⟨JVal.jnull, by simp [asyncGetForeignStateVal, tryCatch, hg]⟩
    | ok o =>
      cases o with
      | none => exact ⟨JVal.jnull, by simp [asyncGetForeignStateVal, tryCatch, hg]⟩
      | some st => exact ⟨st.val, by simp [asyncGetForeignStateVal, tryCatch, hg]⟩
  · intro e he
    simp [getStateValue, getState, verifyStateAvailable, tryCatch, he]
  · intro hnone
    simp [getStateValue, getState, verifyStateAvailable, tryCatch, hnone]
  · intro e he
    cases ho : h.getObjectAsync n with
    | error e2 => simp [getStateValue, getState, verifyStateAvailable, tryCatch, ho]
    | ok o =>
      cases o with
      | none => simp [getStateValue, getState, verifyStateAvailable, tryCatch, ho]
      | some u => simp [getStateValue, getState, verifyStateAvailable, tryCatch, ho, he]
  · intro sv ho hst hempty
    simp [getStateValue, getState, verifyStateAvailable, tryCatch, ho, hst, hempty]
  · intro st ho hst hne
    simp [getStateValue, getState, verifyStateAvailable, tryCatch, ho, hst, hne]
  · intro e he
    simp [asyncGetForeignStateVal, asyncGetForeignState, tryCatch, he]
  · intro hnone
    simp [asyncGetForeignStateVal, asyncGetForeignState, tryCatch, hnone]
  · intro e he
    cases ho : h.getForeignObjectAsync n with
    | error e2 => simp [asyncGetForeignStateVal, asyncGetForeignState, tryCatch, ho]
    | ok o =>
      cases o with
      | none => simp [asyncGetForeignStateVal, asyncGetForeignState, tryCatch, ho]
      | some u => simp [asyncGetForeignStateVal, asyncGetForeignState, tryCatch, ho, he]
  · intro sv ho hst hempty
    simp [asyncGetForeignStateVal, asyncGetForeignState, tryCatch, ho, hst, hempty]
  · intro st ho hst hne
    simp [asyncGetForeignStateVal, asyncGetForeignState, tryCatch, ho, hst, hne]

/-- C8 witness: on a host whose every call rejects, both helpers resolve to
`null`. -/
theorem C8_read_helpers_null_or_value_witness :
    getStateValue hostAllFail "x" = Except.ok JVal.jnull
    ∧ asyncGetForeignStateVal hostAllFail "x" = Except.ok JVal.jnull :=
  ⟨(C8_read_helpers_null_or_value hostAllFail "x").2.2.1 "io failure" rfl,
   (C8_read_helpers_null_or_value hostAllFail "x").2.2.2.2.2.2.2.1 "io failure" rfl⟩

/-- C1: an error with HTTP status 401 yields exactly three log lines, all at
error level, but zero invocations of `adapter.stop` — the source line
`void this.adapter.stop;` references the method without calling it. -/
theorem C1_http401_three_error_logs_no_stop :
    (HandleConnectionError ⟨some 401, none, "Request failed with status code 401"⟩
        "TeslaFi API call" "FI0" ⟨true, true, true, 12⟩ none).logs.length = 3
    ∧ ((HandleConnectionError ⟨some 401, none, "Request failed with status code 401"⟩
        "TeslaFi API call" "FI0" ⟨true, true, true, 12⟩ none).logs.all
          (fun l => l.1 == LogLevel.error)) = true
    ∧ (HandleConnectionError ⟨some 401, none, "Request failed with status code 401"⟩
        "TeslaFi API call" "FI0" ⟨true, true, true, 12⟩ none).stopCalls = 0 := by
  decide

/-- C2 counterexample: an error carrying the transport code `ECONNRESET`
(no HTTP response) produces no log lines and no external report — the claim
says this input takes the unknown-error row and logs two error lines. -/
theorem C2_counterexample_econnreset_is_silent :
    (HandleConnectionError ⟨none, some "ECONNRESET", "read ECONNRESET"⟩
        "TeslaFi API call" "FI0" ⟨true, true, true, 12⟩ none).logs = []
    ∧ (HandleConnectionError ⟨none, some "ECONNRESET", "read ECONNRESET"⟩
        "TeslaFi API call" "FI0" ⟨true, true, true, 12⟩ none).reports = [] := by
  decide

/-- C2 amended: the unknown-error row is taken exactly for errors with no
HTTP response and a falsy transport code; it logs the unknown-error message
and the verify-token hint at error level, issues no stop, and submits one
external report exactly when the plugin chain is available and the message
differs from the last reported one (persisting the new message). -/
theorem C2_amended_unknown_branch (e : StError) (occ oi : String) (env : HCEnv)
    (lastErr : Option String) (hresp : e.response = none)
    (hcode : truthyCode e.code = false) :
    (HandleConnectionError e occ oi env lastErr).logs =
      [(LogLevel.error, "Unknown error when calling " ++ occ ++ ": " ++ e.message),
       (LogLevel.error, "Please verify the API Token or adapt yout poll interval, (e" ++ oi ++ ".3)")]
    ∧ (HandleConnectionError e occ oi env lastErr).stopCalls = 0
    ∧ (HandleConnectionError e occ oi env lastErr).reports =
        (if env.supportsPlugins = true ∧ env.sentryAvailable = true
            ∧ lastErr ≠ some e.message ∧ env.sentryObject = true
         then [("Catched error: " ++ e.message, env.hour)] else [])
    ∧ (lastErr = some e.message →
        (HandleConnectionError e occ oi env lastErr).reports = [])
    ∧ (HandleConnectionError e occ oi env lastErr).lastSentry =
        (if env.supportsPlugins = true ∧ env.sentryAvailable = true
            ∧ lastErr ≠ some e.message
         then some e.message else lastErr) := by
  cases hsp : env.supportsPlugins <;> cases hsa : env.sentryAvailable <;>
    cases hso : env.sentryObject <;> by_cases hl : lastErr = some e.message <;>
      simp [HandleConnectionError, hresp, hcode, hsp, hsa, hso, hl]

/-- C2 amended witness: a fresh unknown error with the full plugin chain
available produces the two error logs and one report tagged with the hour. -/
theorem C2_amended_unknown_branch_witness :
    (HandleConnectionError ⟨none, none, "boom"⟩ "TeslaFi API call" "FI0"
        ⟨true, true, true, 5⟩ none).reports = [("Catched error: boom", 5)]
    ∧ (HandleConnectionError ⟨none, none, "boom"⟩ "TeslaFi API call" "FI0"
        ⟨true, true, true, 5⟩ none).logs.length = 2 := by
  have h := C2_amended_unknown_branch ⟨none, none, "boom"⟩ "TeslaFi API call" "FI0"
    ⟨true, true, true, 5⟩ none rfl rfl
  constructor
  · rw [h.2.2.1]; decide
  · rw [h.1]; rfl

/-- C9: `ReadTeslaFi` resolves to `true` for every outcome of the HTTP call —
successful body, empty body, parse failure, or transport/HTTP error — so its
result never signals failure. -/
theorem C9_ReadTeslaFi_always_true (httpResult : Except StError String)
    (d : PollDeps) : (ReadTeslaFi httpResult d).value = true := by
  unfold ReadTeslaFi
  rcases httpResult with e | body
  · rfl
  · by_cases hb : body = ""
    · simp [hb]
    · cases hp : d.parse body <;> simp [hb, hp]

end TeslaFi
